import Mathlib

/-!
Verification development for the Streamdeck shutdown plugin
(countdown timer, power gateway, composite renderer, shutdown coordinator).

The TypeScript sources are shallowly embedded as executable Lean
definitions:

* `CountdownTimer` (src/shutdown/src/core/countdown-timer.ts) becomes a
  record; the event-loop driven tick chain becomes `runTick`, a recursive
  function returning the list of observed callback events together with
  the final timer state.  An uninterrupted run is one in which no external
  mutation of `state` happens between suspension points, which in the
  sequential embedding means the `state` field is only changed by the
  timer itself.
* `SystemPower` (system-commands.ts) becomes pure functions from the
  armed flag, the host platform and the outcome of the external command
  (supplied as an `Except`, since the process runner is an external
  collaborator) to a list of observable effects; the `try/catch` that
  swallows execution failures is embedded by `runCommand` being total and
  turning the failure outcome into a log effect instead of propagating it.
* `DisplayRenderer` (display-renderer.ts) becomes pure string-building
  functions.  TypeScript numbers are embedded as rationals `ℚ` (every
  arithmetic operation the renderer performs is exact on the inputs that
  occur, and no claim depends on IEEE-754 rounding or on the decimal
  rendering of non-integral numbers); `q2s` is the embedding of JS number
  to string conversion.  The produced per-tile image is kept as a
  structured `SvgImage` (crop window plus embedded graphic); the final
  `<svg>` text and the data-URI wrapper (`encodeURIComponent`) are an
  injective, deterministic external-interface encoding of that structure.
* `ShutdownController` (shutdown-controller.ts) becomes a state record
  plus functions returning the new state and the list of observable
  effects (renders, title clears, settings writes, gateway calls and
  `state` assignments).  The cooperative async interleaving is embedded
  sequentially: each handler runs to completion, which matches the
  single-threaded model of the source.
-/

namespace ShutdownPlugin

/-! ## Countdown timer (countdown-timer.ts) -/

/-- The timer state, `CountdownState` in the source. -/
inductive CountdownState where
  | idle
  | running
  | cancelled
deriving DecidableEq, Repr

/-- The `CountdownTimer` class fields.  `timeoutSet` embeds whether
`this.timeout` currently holds a pending `setTimeout` handle. -/
structure CountdownTimer where
  durationSeconds : Nat
  state : CountdownState
  remainingSeconds : Nat
  timeoutSet : Bool
deriving DecidableEq, Repr

/-- `new CountdownTimer(d)`: state `idle`, remaining `0`, no timeout. -/
def CountdownTimer.new (d : Nat) : CountdownTimer :=
  { durationSeconds := d, state := .idle, remainingSeconds := 0, timeoutSet := false }

/-- Observable callback invocations of the timer: `onTick(n)`,
`onComplete()` and the optional cancellation callback. -/
inductive TimerEvent where
  | tick (n : Nat)
  | complete
  | cancelCb
deriving DecidableEq, Repr

/-- `CountdownTimer.runTick`, run uninterrupted: emits `onTick(remaining)`,
then (state check) if remaining is `0` clears the timeout, moves to `idle`
and emits `onComplete`; otherwise the scheduled timeout fires (state check
again, still running in an uninterrupted run), decrements `remaining` and
recurses. -/
def CountdownTimer.runTick (t : CountdownTimer) : List TimerEvent × CountdownTimer :=
  let ev := TimerEvent.tick t.remainingSeconds
  if t.state = .running then
    if _h : t.remainingSeconds = 0 then
      ([ev, .complete], { t with timeoutSet := false, state := .idle })
    else
      let t' : CountdownTimer :=
        { t with remainingSeconds := t.remainingSeconds - 1, timeoutSet := true }
      let rest := t'.runTick
      (ev :: rest.1, rest.2)
  else
    ([ev], t)
termination_by t.remainingSeconds
decreasing_by
  omega

/-- `CountdownTimer.start`: returns `false` and changes nothing when
already running; otherwise moves to `running` and resets `remaining` to
the duration (the tick loop is then begun, see `startRun`). -/
def CountdownTimer.start (t : CountdownTimer) : Bool × CountdownTimer :=
  if t.state = .running then
    (false, t)
  else
    (true, { t with state := .running, remainingSeconds := t.durationSeconds })

/-- `start` followed by the uninterrupted tick loop: the returned flag,
the list of callback events observed, and the final timer. -/
def CountdownTimer.startRun (t : CountdownTimer) : Bool × List TimerEvent × CountdownTimer :=
  if t.state = .running then
    (false, [], t)
  else
    let t1 : CountdownTimer :=
      { t with state := .running, remainingSeconds := t.durationSeconds }
    let r := t1.runTick
    (true, r.1, r.2)

/-- The synchronous first half of `CountdownTimer.cancel` on a running
timer: clear the pending timeout, move to `cancelled`, zero `remaining`
(this is the timer as the cancellation callback observes it). -/
def CountdownTimer.cancelHalted (t : CountdownTimer) : CountdownTimer :=
  { t with timeoutSet := false, state := .cancelled, remainingSeconds := 0 }

/-- `CountdownTimer.cancel`: `false` and no callback when not running;
otherwise halt the pending wait, move to `cancelled` with remaining `0`,
invoke the optional callback once, then move to `idle` and return `true`.
The middle component lists the callback invocations. -/
def CountdownTimer.cancel (t : CountdownTimer) (hasCallback : Bool) :
    Bool × List TimerEvent × CountdownTimer :=
  if t.state = .running then
    let t1 := t.cancelHalted
    (true, if hasCallback then [TimerEvent.cancelCb] else [], { t1 with state := .idle })
  else
    (false, [], t)

/-- A later attempt of the pending `setTimeout` callback to fire: nothing
happens when the timeout was cleared or the state is no longer `running`
(the callback body re-checks the state); otherwise it decrements and
continues the tick chain. -/
def CountdownTimer.fireTimeout (t : CountdownTimer) : List TimerEvent × CountdownTimer :=
  if t.timeoutSet = false then
    ([], t)
  else if t.state = .running then
    CountdownTimer.runTick { t with remainingSeconds := t.remainingSeconds - 1 }
  else
    ([], t)

/-- `CountdownTimer.dispose`: force everything back to `idle` without
invoking any callback. -/
def CountdownTimer.dispose (t : CountdownTimer) : CountdownTimer :=
  { t with timeoutSet := false, remainingSeconds := 0, state := .idle }

/-! ### Timer lemmas -/

/-- The uninterrupted tick chain from a running timer with `r` seconds
remaining emits the ticks `r, r-1, …, 0` in order and then one completion,
and ends idle with remaining `0`. -/
theorem runTick_running (d r : Nat) (ts : Bool) :
    CountdownTimer.runTick ⟨d, .running, r, ts⟩ =
      ((List.range (r + 1)).reverse.map TimerEvent.tick ++ [TimerEvent.complete],
       ⟨d, .idle, 0, false⟩) := by
  induction r generalizing ts with
  | zero =>
      simp [CountdownTimer.runTick, List.range_succ]
  | succ n ih =>
      rw [CountdownTimer.runTick]
      simp only [List.range_succ, List.reverse_append, List.reverse_cons, List.reverse_nil]
      simp [ih true, List.range_succ]

/-- C1: for every duration d in [5,30], starting a fresh countdown of
duration d and letting it run uninterrupted to completion invokes `onTick`
exactly d+1 times with the values d, d-1, …, 0 in that order (the event
trace is exactly that list of ticks, so no value is skipped or repeated),
followed by exactly one `onComplete`. -/
theorem countdown_run_to_completion (d : Nat) (_h5 : 5 ≤ d) (_h30 : d ≤ 30) :
    (CountdownTimer.new d).startRun =
      (true, (List.range (d + 1)).reverse.map TimerEvent.tick ++ [TimerEvent.complete],
       ⟨d, .idle, 0, false⟩) := by
  simp [CountdownTimer.startRun, CountdownTimer.new, runTick_running]

/-- Witness for C1 at duration 5. -/
theorem countdown_run_to_completion_witness :
    (CountdownTimer.new 5).startRun =
      (true, (List.range 6).reverse.map TimerEvent.tick ++ [TimerEvent.complete],
       ⟨5, .idle, 0, false⟩) :=
  countdown_run_to_completion 5 (by decide) (by decide)

/-- C6: `cancel` returns `false` and invokes no callback whenever the
timer is not running; on a running timer it halts the pending wait
(timeout cleared), passes through the `cancelled` state with remaining 0,
invokes the optional callback exactly once, ends `idle` with remaining 0
returning `true`, and afterwards the pending timeout can never fire, so no
tick below the remaining-at-cancellation is ever observed. -/
theorem cancel_contract :
    (∀ (t : CountdownTimer) (cb : Bool), t.state ≠ .running → t.cancel cb = (false, [], t)) ∧
    (∀ t : CountdownTimer, t.state = .running →
      t.cancel true =
        (true, [TimerEvent.cancelCb], ⟨t.durationSeconds, .idle, 0, false⟩) ∧
      t.cancelHalted.state = .cancelled ∧
      t.cancelHalted.remainingSeconds = 0 ∧
      t.cancelHalted.timeoutSet = false ∧
      (t.cancel true).2.2.fireTimeout = ([], (t.cancel true).2.2)) := by
  constructor
  · intro t cb h
    simp [CountdownTimer.cancel, h]
  · intro t h
    simp [CountdownTimer.cancel, CountdownTimer.cancelHalted, CountdownTimer.fireTimeout, h]

/-- Witness for C6: an idle timer rejects cancellation; a running timer
with 4 seconds left cancels as described. -/
theorem cancel_contract_witness :
    ((CountdownTimer.new 5).cancel true = (false, [], CountdownTimer.new 5)) ∧
    (((⟨10, .running, 4, true⟩ : CountdownTimer).cancel true =
        (true, [TimerEvent.cancelCb], (⟨10, .idle, 0, false⟩ : CountdownTimer))) ∧
      (⟨10, .running, 4, true⟩ : CountdownTimer).cancelHalted.state = .cancelled ∧
      (⟨10, .running, 4, true⟩ : CountdownTimer).cancelHalted.remainingSeconds = 0 ∧
      (⟨10, .running, 4, true⟩ : CountdownTimer).cancelHalted.timeoutSet = false ∧
      ((⟨10, .running, 4, true⟩ : CountdownTimer).cancel true).2.2.fireTimeout =
        ([], ((⟨10, .running, 4, true⟩ : CountdownTimer).cancel true).2.2)) :=
  ⟨cancel_contract.1 (CountdownTimer.new 5) true (by decide),
   cancel_contract.2 ⟨10, .running, 4, true⟩ rfl⟩

/-- C7: calling `start` while the timer is already running returns
`false` and changes nothing — the timer value (in particular
`remainingSeconds`) is untouched and no tick events are produced, so the
in-flight tick sequence is neither restarted nor duplicated. -/
theorem start_while_running (t : CountdownTimer) (h : t.state = .running) :
    t.start = (false, t) ∧ t.startRun = (false, [], t) := by
  simp [CountdownTimer.start, CountdownTimer.startRun, h]

/-- Witness for C7 on a running timer with 7 seconds left. -/
theorem start_while_running_witness :
    (⟨10, .running, 7, true⟩ : CountdownTimer).start =
        (false, (⟨10, .running, 7, true⟩ : CountdownTimer)) ∧
      (⟨10, .running, 7, true⟩ : CountdownTimer).startRun =
        (false, [], (⟨10, .running, 7, true⟩ : CountdownTimer)) :=
  start_while_running ⟨10, .running, 7, true⟩ rfl

/-! ## Power action gateway (system-commands.ts, `SystemPower`) -/

/-- The power action kind, `PowerAction` in the source. -/
inductive PowerAction where
  | shutdown
  | restart
  | sleep
deriving DecidableEq, Repr

/-- The string name of an action, as interpolated into log messages. -/
def PowerAction.name : PowerAction → String
  | .shutdown => "shutdown"
  | .restart => "restart"
  | .sleep => "sleep"

/-- The value of `process.platform` as far as the gateway looks at it:
either the Windows platform or anything else. -/
inductive HostPlatform where
  | win32
  | other
deriving DecidableEq, Repr

/-- Observable effects of the power gateway: spawning the external
command (with its argument vector) and log lines. -/
inductive PowerEffect where
  | execCmd (cmd : String) (args : List String)
  | logLine (m : String)
deriving DecidableEq, Repr

/-- `SystemPower.runCommand`: spawns the external command and awaits its
outcome, which is supplied here as an `Except` because the process runner
is an external collaborator; the `try/catch` in the source is embedded by
this function being total — a failing command becomes a log effect and is
never propagated to the caller. -/
def SystemPower.runCommand (cmd : String) (args : List String) (label : String)
    (outcome : Except String Unit) : List PowerEffect :=
  match outcome with
  | .ok _ => [.execCmd cmd args, .logLine (label ++ " executed")]
  | .error _ => [.execCmd cmd args, .logLine (label ++ " failed")]

/-- `SystemPower.perform`: skips (with a log) when the gate is not armed
or the platform is not Windows; otherwise maps the action to its concrete
command line and runs it through `runCommand`. -/
def SystemPower.perform (armed : Bool) (platform : HostPlatform) (action : PowerAction)
    (outcome : Except String Unit) : List PowerEffect :=
  if armed = false then
    [.logLine (action.name ++ " skipped (not armed)")]
  else if platform ≠ .win32 then
    [.logLine (action.name ++ " skipped (non-Windows)")]
  else
    match action with
    | .shutdown => SystemPower.runCommand "shutdown" ["/s", "/t", "0"] "trigger shutdown" outcome
    | .restart => SystemPower.runCommand "shutdown" ["/r", "/t", "0"] "trigger restart" outcome
    | .sleep =>
        SystemPower.runCommand "rundll32.exe" ["powrprof.dll,SetSuspendState", "0,1,0"]
          "trigger sleep" outcome

/-- `SystemPower.abortScheduled`: same gating as `perform`, then the
abort command `shutdown /a`. -/
def SystemPower.abortScheduled (armed : Bool) (platform : HostPlatform)
    (outcome : Except String Unit) : List PowerEffect :=
  if armed = false then
    [.logLine "abort skipped (not armed)"]
  else if platform ≠ .win32 then
    [.logLine "abort skipped (non-Windows)"]
  else
    SystemPower.runCommand "shutdown" ["/a"] "abort shutdown" outcome

/-- The concrete command line `perform` maps each action to. -/
def PowerAction.command : PowerAction → String × List String
  | .shutdown => ("shutdown", ["/s", "/t", "0"])
  | .restart => ("shutdown", ["/r", "/t", "0"])
  | .sleep => ("rundll32.exe", ["powrprof.dll,SetSuspendState", "0,1,0"])

/-- The executions contained in a list of power effects. -/
def PowerEffect.execs (l : List PowerEffect) : List (String × List String) :=
  l.filterMap fun e =>
    match e with
    | .execCmd c a => some (c, a)
    | .logLine _ => none

/-- The log label `perform` passes to `runCommand` for each action. -/
def PowerAction.label : PowerAction → String
  | .shutdown => "trigger shutdown"
  | .restart => "trigger restart"
  | .sleep => "trigger sleep"

/-- C8: `perform` executes no external command (only a skip log) whenever
the gate is not armed or the platform is not Windows; otherwise it invokes
exactly the concrete command line mapped from the action, and a failing
execution is caught and turned into a log effect — `perform` is total (the
embedding of a promise that never rejects), returning the exec followed by
a failure log instead of propagating the error. -/
theorem perform_contract (armed : Bool) (platform : HostPlatform) (action : PowerAction)
    (outcome : Except String Unit) :
    (armed = false →
      SystemPower.perform armed platform action outcome =
          [.logLine (action.name ++ " skipped (not armed)")] ∧
        PowerEffect.execs (SystemPower.perform armed platform action outcome) = []) ∧
    (armed = true → platform ≠ .win32 →
      SystemPower.perform armed platform action outcome =
          [.logLine (action.name ++ " skipped (non-Windows)")] ∧
        PowerEffect.execs (SystemPower.perform armed platform action outcome) = []) ∧
    (armed = true → platform = .win32 →
      PowerEffect.execs (SystemPower.perform armed platform action outcome) =
          [action.command] ∧
        (∀ err : String,
          SystemPower.perform armed platform action (Except.error err) =
            [.execCmd action.command.1 action.command.2,
             .logLine (action.label ++ " failed")])) := by
  refine ⟨fun h => ?_, fun h hp => ?_, fun h hp => ?_⟩
  · subst h
    cases action <;>
      simp [SystemPower.perform, PowerEffect.execs, PowerAction.name]
  · subst h
    cases platform
    · exact absurd rfl hp
    · cases action <;>
        simp [SystemPower.perform, PowerEffect.execs, PowerAction.name]
  · subst h
    subst hp
    cases action <;> cases outcome <;>
      simp [SystemPower.perform, SystemPower.runCommand, PowerEffect.execs,
        PowerAction.command, PowerAction.label]

/-- Witness for C8: a disarmed shutdown is skipped, an armed non-Windows
shutdown is skipped, and an armed Windows restart maps to its command. -/
theorem perform_contract_witness :
    (SystemPower.perform false .win32 .shutdown (Except.ok ()) =
        [.logLine (PowerAction.shutdown.name ++ " skipped (not armed)")] ∧
      PowerEffect.execs (SystemPower.perform false .win32 .shutdown (Except.ok ())) = []) ∧
    (SystemPower.perform true .other .shutdown (Except.ok ()) =
        [.logLine (PowerAction.shutdown.name ++ " skipped (non-Windows)")] ∧
      PowerEffect.execs (SystemPower.perform true .other .shutdown (Except.ok ())) = []) ∧
    (PowerEffect.execs (SystemPower.perform true .win32 .restart (Except.ok ())) =
        [PowerAction.restart.command] ∧
      (∀ err : String,
        SystemPower.perform true .win32 .restart (Except.error err) =
          [.execCmd PowerAction.restart.command.1 PowerAction.restart.command.2,
           .logLine (PowerAction.restart.label ++ " failed")])) :=
  ⟨(perform_contract false .win32 .shutdown (Except.ok ())).1 rfl,
   (perform_contract true .other .shutdown (Except.ok ())).2.1 rfl (by decide),
   (perform_contract true .win32 .restart (Except.ok ())).2.2 rfl rfl⟩

/-! ## Settings normalization (shutdown-controller.ts)

String operations of the source are embedded through the character list
of the Lean string: the falsiness test on a string becomes
`color.data.isEmpty`, `startsWith("#")` becomes a check of the head
character, `slice(1)` becomes the tail, the anchored regular expression
`[0-9a-fA-F]` repeated six times becomes a length check together with a
per-character class membership, template concatenation becomes consing
the hash character, and `toLowerCase()` becomes mapping `Char.toLower`
(identical on the ASCII range the validated strings live in). -/

/-- A JavaScript number as the controller inspects it: a finite value,
embedded as an exact rational, or one of the non-finite values that
`Number.isFinite` rejects. -/
inductive JNum where
  | val (q : ℚ)
  | nan
  | inf
  | ninf
deriving DecidableEq, Repr

/-- `Number.isFinite`. -/
def JNum.isFinite : JNum → Bool
  | .val _ => true
  | _ => false

/-- `Math.round` on a finite number: nearest integer, halves rounded
toward positive infinity. -/
def jround (q : ℚ) : ℤ := ⌊q + 1 / 2⌋

/-- `NormalizedSettings` (`Required<ShutdownSettings>`), with the power
action already parsed into its enum. -/
structure NormalizedSettings where
  countdownSeconds : ℤ
  accentColor : String
  multiTileLayout : Bool
  armed : Bool
  powerAction : PowerAction
deriving DecidableEq, Repr

/-- The `DEFAULTS` constant of the controller. -/
def DEFAULTS : NormalizedSettings :=
  { countdownSeconds := 10, accentColor := "#00d37f", multiTileLayout := true,
    armed := false, powerAction := .shutdown }

/-- The `ShutdownSettings` input payload: every field optional. -/
structure InputSettings where
  countdownSeconds : Option JNum := none
  accentColor : Option String := none
  multiTileLayout : Option Bool := none
  armed : Option Bool := none
  powerAction : Option String := none
deriving DecidableEq, Repr

/-- `clampSeconds`: replace a non-finite value by the default, round,
then clamp into [5, 30]. -/
def clampSeconds (seconds : JNum) : ℤ :=
  let safe : ℚ :=
    match seconds with
    | .val q => q
    | _ => (DEFAULTS.countdownSeconds : ℚ)
  min 30 (max 5 (jround safe))

/-- The decimal digits of the validation regex class. -/
def hexNumerals : List Char := ['0', '1', '2', '3', '4', '5', '6', '7', '8', '9']

/-- The lower-case letters of the validation regex class. -/
def hexLowers : List Char := ['a', 'b', 'c', 'd', 'e', 'f']

/-- The upper-case letters of the validation regex class. -/
def hexUppers : List Char := ['A', 'B', 'C', 'D', 'E', 'F']

/-- The character class of the validation regex, `[0-9a-fA-F]`. -/
def hexChars : List Char := hexNumerals ++ hexLowers ++ hexUppers

/-- Membership in the hex-digit character class. -/
def isHexDigit (c : Char) : Bool := decide (c ∈ hexChars)

/-- `toLowerCase()` as a character-wise map. -/
def jsToLower (s : String) : String := ⟨s.data.map Char.toLower⟩

/-- `normalizeColor`: empty input falls back to the default; otherwise a
leading hash is stripped, the remainder must be exactly six hex digits,
and a valid color is returned re-prefixed and lower-cased, anything else
falls back to the default accent color. -/
def normalizeColor (color : String) : String :=
  if color.data.isEmpty then DEFAULTS.accentColor
  else
    let hex : String := if color.data.head? = some '#' then ⟨color.data.tail⟩ else color
    if hex.data.length = 6 && hex.data.all isHexDigit then
      jsToLower ⟨'#' :: hex.data⟩
    else DEFAULTS.accentColor

/-- `normalizePowerAction`: the three recognized names, else default. -/
def normalizePowerAction (action : Option String) : PowerAction :=
  match action with
  | some "restart" => .restart
  | some "sleep" => .sleep
  | some "shutdown" => .shutdown
  | _ => DEFAULTS.powerAction

/-- `normalizeSettings`: missing fields are defaulted, the duration is
clamped, the color validated, the power action parsed. -/
def normalizeSettings (s : InputSettings) : NormalizedSettings :=
  { accentColor := normalizeColor (s.accentColor.getD DEFAULTS.accentColor),
    countdownSeconds :=
      clampSeconds (s.countdownSeconds.getD (.val (DEFAULTS.countdownSeconds : ℚ))),
    multiTileLayout := s.multiTileLayout.getD DEFAULTS.multiTileLayout,
    armed := s.armed.getD DEFAULTS.armed,
    powerAction := normalizePowerAction s.powerAction }

/-- An already-normalized value read back as an input payload (this is
how a normalized value stored on a tile re-enters normalization). -/
def NormalizedSettings.asInput (n : NormalizedSettings) : InputSettings :=
  { countdownSeconds := some (.val (n.countdownSeconds : ℚ)),
    accentColor := some n.accentColor,
    multiTileLayout := some n.multiTileLayout,
    armed := some n.armed,
    powerAction := some n.powerAction.name }

/-! ### Normalization lemmas -/

/-- Lower-casing a hex digit yields a hex digit, and lower-casing is
idempotent on hex digits. -/
theorem hexDigit_toLower (c : Char) (h : isHexDigit c = true) :
    isHexDigit c.toLower = true ∧ c.toLower.toLower = c.toLower := by
  have hmem : c ∈ hexChars := of_decide_eq_true h
  unfold hexChars hexNumerals hexLowers hexUppers at hmem
  rw [List.mem_append, List.mem_append] at hmem
  rcases hmem with (hd | hl) | hu
  · fin_cases hd <;> exact ⟨by decide, by decide⟩
  · fin_cases hl <;> exact ⟨by decide, by decide⟩
  · fin_cases hu <;> exact ⟨by decide, by decide⟩

/-- The clamp keeps its output inside [5, 30]. -/
theorem clampSeconds_mem (s : JNum) : 5 ≤ clampSeconds s ∧ clampSeconds s ≤ 30 :=
  ⟨le_min (by norm_num) (le_max_left _ _), min_le_left _ _⟩

/-- The clamp fixes every integer already inside [5, 30]. -/
theorem clampSeconds_fixed (m : ℤ) (h5 : 5 ≤ m) (h30 : m ≤ 30) :
    clampSeconds (.val (m : ℚ)) = m := by
  have hr : jround (m : ℚ) = m := by
    unfold jround
    rw [Int.floor_eq_iff]
    constructor
    · linarith
    · linarith
  show min 30 (max 5 (jround (m : ℚ))) = m
  rw [hr]
  rw [max_eq_right h5, min_eq_right h30]

/-- On a string that is a hash followed by six hex digits,
`normalizeColor` keeps the digits and lower-cases them. -/
theorem normalizeColor_hash (l : List Char) (hlen : l.length = 6)
    (hall : l.all isHexDigit = true) :
    normalizeColor ⟨'#' :: l⟩ = ⟨'#' :: l.map Char.toLower⟩ := by
  have hlower : Char.toLower '#' = '#' := by decide
  simp [normalizeColor, jsToLower, hlen, hall, hlower]

/-- Every output of `normalizeColor` is the default color or a hash
followed by six lower-cased hex digits. -/
theorem normalizeColor_shape (c : String) :
    normalizeColor c = DEFAULTS.accentColor ∨
    ∃ l : List Char, normalizeColor c = ⟨'#' :: l.map Char.toLower⟩ ∧
      l.length = 6 ∧ l.all isHexDigit = true := by
  by_cases hempty : c.data.isEmpty = true
  · left
    simp only [normalizeColor]
    rw [if_pos hempty]
  · by_cases hvalid :
      ((if c.data.head? = some '#' then (⟨c.data.tail⟩ : String) else c).data.length = 6 &&
        (if c.data.head? = some '#' then (⟨c.data.tail⟩ : String) else c).data.all
          isHexDigit) = true
    · right
      refine ⟨(if c.data.head? = some '#' then (⟨c.data.tail⟩ : String) else c).data, ?_,
        ?_, ?_⟩
      · have hlower : Char.toLower '#' = '#' := by decide
        simp only [normalizeColor]
        rw [if_neg hempty, if_pos hvalid]
        simp [jsToLower, hlower]
      · have h' := hvalid
        rw [Bool.and_eq_true, decide_eq_true_eq] at h'
        exact h'.1
      · have h' := hvalid
        rw [Bool.and_eq_true] at h'
        exact h'.2
    · left
      simp only [normalizeColor]
      rw [if_neg hempty, if_neg hvalid]

/-- `normalizeColor` is idempotent. -/
theorem normalizeColor_idem (c : String) :
    normalizeColor (normalizeColor c) = normalizeColor c := by
  rcases normalizeColor_shape c with h | ⟨l, h, hlen, hall⟩
  · rw [h]
    decide
  · rw [h]
    have hlen' : (l.map Char.toLower).length = 6 := by
      simpa using hlen
    have hall' : (l.map Char.toLower).all isHexDigit = true := by
      rw [List.all_eq_true]
      intro x hx
      obtain ⟨y, hy, rfl⟩ := List.mem_map.mp hx
      have hally := List.all_eq_true.mp hall y hy
      exact (hexDigit_toLower y hally).1
    rw [normalizeColor_hash (l.map Char.toLower) hlen' hall']
    have : (l.map Char.toLower).map Char.toLower = l.map Char.toLower := by
      rw [List.map_map]
      apply List.map_congr_left
      intro a ha
      have hmem := List.all_eq_true.mp hall a ha
      exact (hexDigit_toLower a hmem).2
    rw [this]

/-- Re-normalizing the stored name of a normalized power action gives
back the same action. -/
theorem normalizePowerAction_name (a : PowerAction) :
    normalizePowerAction (some a.name) = a := by
  cases a <;> rfl

/-- C5: settings normalization is idempotent — feeding an
already-normalized value back through `normalizeSettings` returns an
identical value — and on the specific inputs of the claim: accent color
ZZZZZZ normalizes to the default accent, duration 1 clamps to 5 and
duration 999 clamps to 30. -/
theorem normalizeSettings_contract :
    (∀ s : InputSettings,
      normalizeSettings (normalizeSettings s).asInput = normalizeSettings s) ∧
    (normalizeSettings { accentColor := some "ZZZZZZ" }).accentColor = "#00d37f" ∧
    (normalizeSettings { countdownSeconds := some (.val 1) }).countdownSeconds = 5 ∧
    (normalizeSettings { countdownSeconds := some (.val 999) }).countdownSeconds = 30 := by
  have hfloor : (⌊(1 : ℚ) + 1 / 2⌋ : ℤ) = 1 := by
    rw [Int.floor_eq_iff]; norm_num
  have hfloor' : (⌊(999 : ℚ) + 1 / 2⌋ : ℤ) = 999 := by
    rw [Int.floor_eq_iff]; norm_num
  refine ⟨?_, by decide, ?_, ?_⟩
  · intro s
    unfold normalizeSettings NormalizedSettings.asInput
    simp only [Option.getD_some, NormalizedSettings.mk.injEq]
    have hmem :=
      clampSeconds_mem (s.countdownSeconds.getD (.val (DEFAULTS.countdownSeconds : ℚ)))
    exact ⟨clampSeconds_fixed _ hmem.1 hmem.2, normalizeColor_idem _, trivial, trivial,
      normalizePowerAction_name _⟩
  · show min 30 (max 5 (jround 1)) = 5
    rw [jround, hfloor]
    decide
  · show min 30 (max 5 (jround 999)) = 30
    rw [jround, hfloor']
    decide

/-! ## Composite renderer (display-renderer.ts)

Numbers are exact rationals; `q2s` embeds JavaScript number-to-string
conversion (integers print without a fractional part, other values as
exact fractions — the claims only ever compare strings produced by this
same function, so the decimal notation JavaScript would choose is
immaterial).  `jsPI` is the exact rational value of the IEEE-754 double
`Math.PI`. -/

/-- A tile handle as the renderer sees it: identity, owning device and
the optional grid coordinate. -/
structure KeyAction where
  id : String
  deviceId : String
  coordinates : Option (Int × Int)
deriving DecidableEq, Repr

/-- A tile with a resolved coordinate (`Tile` in the source). -/
structure Tile where
  action : KeyAction
  col : Int
  row : Int
deriving DecidableEq, Repr

/-- The derived bounding layout (`Layout` in the source). -/
structure Layout where
  tileSize : ℚ
  minCol : Int
  minRow : Int
  columns : Int
  rows : Int
  widthPx : ℚ
  heightPx : ℚ
deriving DecidableEq, Repr

/-- `RenderOptions`: every styling field optional. -/
structure RenderOptions where
  accentColor : Option String := none
  textColor : Option String := none
  backgroundColor : Option String := none
  gridColor : Option String := none
  progressColor : Option String := none
  progressBackground : Option String := none
  blink : Option Bool := none
  multiTileLayout : Option Bool := none
deriving DecidableEq, Repr

/-- `DisplayStyle`: the resolved style. -/
structure DisplayStyle where
  accent : String
  text : String
  background : String
  grid : String
  progressBg : String
  progressFg : String
  blink : Bool
deriving DecidableEq, Repr

/-- The fixed per-tile pixel size (`this.tileSize = 200`). -/
def rendererTileSize : ℚ := 200

/-- Embedding of JavaScript number-to-string conversion, see the section
comment. -/
def q2s (q : ℚ) : String :=
  if q.den = 1 then toString q.num else toString q.num ++ "/" ++ toString q.den

/-- The exact rational value of the double `Math.PI`. -/
def jsPI : ℚ := 884279719003555 / 281474976710656

/-- `prepareTiles`: keep the actions that expose a grid coordinate; when
none do but actions exist, fall back to one synthetic tile at (0,0) bound
to the first action. -/
def prepareTiles (actions : List KeyAction) : List Tile :=
  let tiles := actions.filterMap fun a =>
    a.coordinates.map fun c => { action := a, col := c.1, row := c.2 }
  match tiles, actions with
  | [], a :: _ => [{ action := a, col := 0, row := 0 }]
  | ts, _ => ts

/-- Minimum of a list of integers; only ever used on nonempty lists (the
source spreads the list into `Math.min`, and `buildLayout` is only called
with at least one tile). -/
def intListMin : List Int → Int
  | [] => 0
  | x :: xs => xs.foldl min x

/-- Maximum of a list of integers; same usage note as `intListMin`. -/
def intListMax : List Int → Int
  | [] => 0
  | x :: xs => xs.foldl max x

/-- `buildLayout`: bounding rectangle of the tile coordinates and its
pixel dimensions. -/
def buildLayout (tiles : List Tile) : Layout :=
  let minCol := intListMin (tiles.map (·.col))
  let maxCol := intListMax (tiles.map (·.col))
  let minRow := intListMin (tiles.map (·.row))
  let maxRow := intListMax (tiles.map (·.row))
  let columns := maxCol - minCol + 1
  let rows := maxRow - minRow + 1
  { tileSize := rendererTileSize, minCol := minCol, minRow := minRow,
    columns := columns, rows := rows,
    widthPx := (columns : ℚ) * rendererTileSize,
    heightPx := (rows : ℚ) * rendererTileSize }

/-- `colorForRatio`: the three-stop color ramp. -/
def colorForRatio (ratio : ℚ) : String :=
  if ratio > 66 / 100 then "#00d37f"
  else if ratio > 33 / 100 then "#ffb02e"
  else "#ff3b30"

/-- `buildStyle`: resolve the style from the options with defaults. -/
def buildStyle (remaining total : ℚ) (options : RenderOptions) : DisplayStyle :=
  let ratio : ℚ := if total > 0 then max 0 (min 1 (remaining / total)) else 0
  let blink := options.blink.getD false
  { accent := options.accentColor.getD (colorForRatio ratio),
    text := options.textColor.getD "#e7f0ff",
    background := options.backgroundColor.getD "#050910",
    grid := options.gridColor.getD
      (if blink then "rgba(255,255,255,0.24)" else "rgba(255,255,255,0.12)"),
    progressBg := options.progressBackground.getD "rgba(255,255,255,0.12)",
    progressFg := options.progressColor.getD (colorForRatio ratio),
    blink := blink }

/-- `segmentsForDigit`: standard seven-segment encoding a-g, with the
fallback to the 0 pattern for anything unrecognized. -/
def segmentsForDigit (digit : Int) : List Bool :=
  if digit = 0 then [true, true, true, true, true, true, false]
  else if digit = 1 then [false, true, true, false, false, false, false]
  else if digit = 2 then [true, true, false, true, true, false, true]
  else if digit = 3 then [true, true, true, true, false, false, true]
  else if digit = 4 then [false, true, true, false, false, true, true]
  else if digit = 5 then [true, false, true, true, false, true, true]
  else if digit = 6 then [true, false, true, true, true, true, true]
  else if digit = 7 then [true, true, true, false, false, false, false]
  else if digit = 8 then [true, true, true, true, true, true, true]
  else if digit = 9 then [true, true, true, true, false, true, true]
  else [true, true, true, true, true, true, false]

/-- `Number.parseInt` on one character of a decimal numeral, with the
`Number.isNaN` guard mapping a non-digit to 0. -/
def charDigit (c : Char) : Int :=
  if '0' ≤ c ∧ c ≤ '9' then ((c.toNat : Int) - ('0'.toNat : Int)) else 0

/-- `segmentRect`: one rounded rectangle. -/
def segmentRect (x y width height radius : ℚ) (fill : String) : String :=
  "<rect x=\"" ++ q2s x ++ "\" y=\"" ++ q2s y ++ "\" width=\"" ++ q2s width ++
    "\" height=\"" ++ q2s height ++ "\" rx=\"" ++ q2s radius ++ "\" ry=\"" ++
    q2s radius ++ "\" fill=\"" ++ fill ++ "\" />"

/-- Flag lookup `flags[i]` on the seven-segment flag array. -/
def segFlag (flags : List Bool) (i : Nat) : Bool := flags.getD i false

/-- `segmentSet`: emit the lit segments a-g in order. -/
def segmentSet (flags : List Bool) (x y horizontalLength verticalLength thickness radius : ℚ)
    (fill : String) : String :=
  String.join
    ((if segFlag flags 0 then
        [segmentRect (x + thickness) y horizontalLength thickness radius fill]
      else []) ++
     (if segFlag flags 1 then
        [segmentRect (x + thickness + horizontalLength) (y + thickness) thickness
          verticalLength radius fill]
      else []) ++
     (if segFlag flags 2 then
        [segmentRect (x + thickness + horizontalLength) (y + thickness * 2 + verticalLength)
          thickness verticalLength radius fill]
      else []) ++
     (if segFlag flags 3 then
        [segmentRect (x + thickness) (y + thickness * 2 + verticalLength * 2) horizontalLength
          thickness radius fill]
      else []) ++
     (if segFlag flags 4 then
        [segmentRect x (y + thickness * 2 + verticalLength) thickness verticalLength radius
          fill]
      else []) ++
     (if segFlag flags 5 then
        [segmentRect x (y + thickness) thickness verticalLength radius fill]
      else []) ++
     (if segFlag flags 6 then
        [segmentRect (x + thickness) (y + thickness + verticalLength) horizontalLength
          thickness radius fill]
      else []))

/-- `renderDigit`: geometry of one seven-segment digit wrapped in the
glow group. -/
def renderDigit (flags : List Bool) (x y width height : ℚ) (style : DisplayStyle) : String :=
  let thickness := min width height * (18 / 100)
  let horizontalLength := width - thickness * 2
  let verticalLength := (height - thickness * 3) / 2
  let radius := thickness * (35 / 100)
  let coreSegments :=
    segmentSet flags x y horizontalLength verticalLength thickness radius style.accent
  "<g filter=\"url(#digit-glow)\">" ++ coreSegments ++ "</g>"

/-- `progressSweep`: background ring and foreground arc. -/
def progressSweep (layout : Layout) (style : DisplayStyle) (progress : ℚ) : String :=
  let clamped := max 0 (min 1 progress)
  let cx := layout.widthPx / 2
  let cy := layout.heightPx / 2
  let radius := min layout.widthPx layout.heightPx / 2 - layout.tileSize * (12 / 100)
  let circumference := 2 * jsPI * radius
  let dashLength := circumference * clamped
  let strokeWidth := max 8 (layout.tileSize * (5 / 100))
  "\n\t\t\t<g>\n\t\t\t\t<circle cx=\"" ++ q2s cx ++ "\" cy=\"" ++ q2s cy ++ "\" r=\"" ++
    q2s radius ++ "\" fill=\"none\" stroke=\"" ++ style.progressBg ++
    "\" stroke-width=\"" ++ q2s strokeWidth ++ "\" />\n\t\t\t\t<circle cx=\"" ++ q2s cx ++
    "\" cy=\"" ++ q2s cy ++ "\" r=\"" ++ q2s radius ++ "\" fill=\"none\" stroke=\"" ++
    style.progressFg ++ "\" stroke-width=\"" ++ q2s strokeWidth ++
    "\" stroke-linecap=\"round\" stroke-dasharray=\"" ++ q2s dashLength ++ " " ++
    q2s circumference ++ "\" transform=\"rotate(-90 " ++ q2s cx ++ " " ++ q2s cy ++
    ")\" />\n\t\t\t</g>\n\t\t"

/-- `buildCountdownGraphic`: the seven-segment digits of the remaining
value, centered and scaled, plus the progress ring. -/
def buildCountdownGraphic (remaining : Nat) (layout : Layout) (style : DisplayStyle)
    (progress : ℚ) : String :=
  let digits := (Nat.repr remaining).data
  let baseDigitWidth : ℚ := 80
  let baseDigitHeight : ℚ := 140
  let gap : ℚ := 20
  let padding := layout.tileSize * (8 / 100)
  let contentWidth :=
    (digits.length : ℚ) * baseDigitWidth + ((max 0 ((digits.length : Int) - 1)) : ℚ) * gap
  let contentHeight := baseDigitHeight
  let scale := min ((layout.widthPx - padding * 2) / contentWidth)
    ((layout.heightPx - padding * 2) / contentHeight)
  let digitWidth := baseDigitWidth * scale
  let digitHeight := baseDigitHeight * scale
  let digitGap := gap * scale
  let totalWidth :=
    (digits.length : ℚ) * digitWidth + ((max 0 ((digits.length : Int) - 1)) : ℚ) * digitGap
  let startX := (layout.widthPx - totalWidth) / 2
  let startY := (layout.heightPx - digitHeight) / 2
  let segments := String.join (digits.enum.map fun p =>
    let flags := segmentsForDigit (charDigit p.2)
    let x := startX + (p.1 : ℚ) * (digitWidth + digitGap)
    renderDigit flags x startY digitWidth digitHeight style)
  let progressRing := progressSweep layout style progress
  progressRing ++ segments

/-- One escaped character of `escapeXml` (the global single-character
regex replace acts character by character). -/
def escapeXmlChar (c : Char) : List Char :=
  if c = '<' then "&lt;".data
  else if c = '>' then "&gt;".data
  else if c = '&' then "&amp;".data
  else if c = '"' then "&quot;".data
  else [c]

/-- `escapeXml`: replace every markup character of the message by its
entity. -/
def escapeXml (value : String) : String :=
  ⟨value.data.foldr (fun c acc => escapeXmlChar c ++ acc) []⟩

/-- The body of `buildMessageGraphic` after the message has been
escaped: one centered auto-sized text element holding `safeMessage`, with
the multi-tile left-safe inset. -/
def buildMessageGraphicSafe (safeMessage : String) (layout : Layout)
    (style : DisplayStyle) : String :=
  let isMulti := layout.columns > 1 ∨ layout.rows > 1
  let padding :=
    if isMulti then max (layout.tileSize * (16 / 100)) (layout.widthPx * (5 / 100))
    else layout.tileSize * (12 / 100)
  let maxFontByWidth :=
    (layout.widthPx - padding * 2) / max 3 ((safeMessage.data.length : ℚ) * (62 / 100))
  let maxFontByHeight := layout.heightPx * (38 / 100)
  let fontSize := min maxFontByWidth maxFontByHeight
  let leftInset :=
    if isMulti then max (layout.tileSize * (8 / 100)) (layout.widthPx * (32 / 1000)) else 0
  let centerX := layout.widthPx / 2 - leftInset
  let centerY := layout.heightPx / 2 + fontSize / 3
  if safeMessage.data.isEmpty then ""
  else
    "<g filter=\"url(#digit-glow)\">\n\t\t\t<text x=\"" ++ q2s centerX ++ "\" y=\"" ++
      q2s centerY ++ "\" fill=\"" ++ style.text ++
      "\" font-family=\"Segoe UI Semibold,Segoe UI,Arial\" font-size=\"" ++ q2s fontSize ++
      "\" text-anchor=\"middle\" letter-spacing=\"" ++ q2s (fontSize * (38 / 1000)) ++
      "\" dominant-baseline=\"middle\">" ++ safeMessage ++ "</text>\n\t\t</g>"

/-- `buildMessageGraphic`: escape the message, then build the text
element — the raw message text never reaches the document. -/
def buildMessageGraphic (message : String) (layout : Layout) (style : DisplayStyle) : String :=
  buildMessageGraphicSafe (escapeXml message) layout style

/-- `buildDefs`: the glow filter definitions (the style argument is
accepted and unused, as in the source). -/
def buildDefs (_style : DisplayStyle) : String :=
  "<defs>\n\t\t\t<filter id=\"digit-glow\" x=\"-30%\" y=\"-30%\" width=\"160%\" height=\"160%\">\n\t\t\t\t<feGaussianBlur stdDeviation=\"6\" result=\"blur\" />\n\t\t\t\t<feMerge>\n\t\t\t\t\t<feMergeNode in=\"blur\" />\n\t\t\t\t\t<feMergeNode in=\"SourceGraphic\" />\n\t\t\t\t</feMerge>\n\t\t\t</filter>\n\t\t</defs>"

/-- `baseBackground`: background fill plus vignette (lighter when the
blink flag is set). -/
def baseBackground (layout : Layout) (style : DisplayStyle) : String :=
  let vignette := if style.blink then "rgba(255,255,255,0.06)" else "rgba(0,0,0,0.14)"
  "<rect x=\"0\" y=\"0\" width=\"" ++ q2s layout.widthPx ++ "\" height=\"" ++
    q2s layout.heightPx ++ "\" fill=\"" ++ style.background ++
    "\" />\n\t\t<rect x=\"0\" y=\"0\" width=\"" ++ q2s layout.widthPx ++ "\" height=\"" ++
    q2s layout.heightPx ++ "\" fill=\"" ++ vignette ++ "\" />"

/-- `gridLines`: separator lines at each internal column and row
boundary. -/
def gridLines (layout : Layout) (style : DisplayStyle) : String :=
  let colParts := (List.range (layout.columns - 1).toNat).map fun i =>
    let x := ((i : ℚ) + 1) * layout.tileSize
    "<line x1=\"" ++ q2s x ++ "\" y1=\"0\" x2=\"" ++ q2s x ++ "\" y2=\"" ++
      q2s layout.heightPx ++ "\" stroke=\"" ++ style.grid ++ "\" stroke-width=\"4\" />"
  let rowParts := (List.range (layout.rows - 1).toNat).map fun i =>
    let y := ((i : ℚ) + 1) * layout.tileSize
    "<line x1=\"0\" y1=\"" ++ q2s y ++ "\" x2=\"" ++ q2s layout.widthPx ++ "\" y2=\"" ++
      q2s y ++ "\" stroke=\"" ++ style.grid ++ "\" stroke-width=\"4\" />"
  String.join (colParts ++ rowParts)

/-- One delivered tile image: the embedded graphic together with the
declared crop window (the viewBox) and the fixed 200x200 output size.
The literal svg text and the data-URI wrapper around it are an injective
external-interface encoding of this structure, see `SvgImage.text`. -/
structure SvgImage where
  viewX : ℚ
  viewY : ℚ
  viewW : ℚ
  viewH : ℚ
  graphic : String
deriving DecidableEq, Repr

/-- The svg document text a tile receives (before percent-encoding into
the data URI). -/
def SvgImage.text (img : SvgImage) : String :=
  "<svg xmlns=\"http://www.w3.org/2000/svg\" viewBox=\"" ++ q2s img.viewX ++ " " ++
    q2s img.viewY ++ " " ++ q2s img.viewW ++ " " ++ q2s img.viewH ++
    "\" width=\"200\" height=\"200\">" ++ img.graphic ++ "</svg>"

/-- The one shared full-canvas graphic `renderAcrossTiles` builds:
defs, background, grid lines, then the content. -/
def fullGraphic (layout : Layout) (content : String) (style : DisplayStyle) : String :=
  buildDefs style ++ baseBackground layout style ++ gridLines layout style ++ content

/-- `renderAcrossTiles`: build the full graphic once, then deliver to
each tile the same graphic cropped by a tile-sized viewBox at the tile's
pixel offset inside the layout. -/
def renderAcrossTiles (tiles : List Tile) (layout : Layout) (content : String)
    (style : DisplayStyle) : List (KeyAction × SvgImage) :=
  let full := fullGraphic layout content style
  tiles.map fun tile =>
    (tile.action,
     { viewX := (((tile.col - layout.minCol) : Int) : ℚ) * layout.tileSize,
       viewY := (((tile.row - layout.minRow) : Int) : ℚ) * layout.tileSize,
       viewW := layout.tileSize, viewH := layout.tileSize, graphic := full })

/-- The compositing decision of `renderCountdown`:
`options?.multiTileLayout === true && tiles.length > 1`. -/
def useMultiTileCountdown (options : RenderOptions) (tiles : List Tile) : Bool :=
  decide (options.multiTileLayout = some true) && decide (tiles.length > 1)

/-- The compositing decision of `renderMessage`: `tiles.length > 1`. -/
def useMultiTileMessage (tiles : List Tile) : Bool :=
  decide (tiles.length > 1)

/-- `renderCountdown`: per-tile images for the remaining value — one
shared canvas when the multi-tile decision holds, otherwise an
independent 1x1 layout per tile. -/
def renderCountdown (remaining totalSeconds : Nat) (actions : List KeyAction)
    (options : RenderOptions) : List (KeyAction × SvgImage) :=
  let tiles := prepareTiles actions
  if tiles.isEmpty then []
  else
    let style := buildStyle (remaining : ℚ) (totalSeconds : ℚ) options
    let progress : ℚ :=
      if (totalSeconds : ℚ) > 0 then 1 - max 0 (min 1 ((remaining : ℚ) / (totalSeconds : ℚ)))
      else 1
    if useMultiTileCountdown options tiles then
      let layout := buildLayout tiles
      let content := buildCountdownGraphic remaining layout style progress
      renderAcrossTiles tiles layout content style
    else
      (tiles.map fun tile =>
        let layout := buildLayout [tile]
        let content := buildCountdownGraphic remaining layout style progress
        renderAcrossTiles [tile] layout content style).flatten

/-- `renderMessage`: per-tile images for a text message — one shared
canvas whenever more than one tile is present, otherwise an independent
1x1 layout per tile. -/
def renderMessage (message : String) (actions : List KeyAction)
    (options : RenderOptions) : List (KeyAction × SvgImage) :=
  let tiles := prepareTiles actions
  if tiles.isEmpty then []
  else
    let style := buildStyle 1 1 options
    if useMultiTileMessage tiles then
      let layout := buildLayout tiles
      renderAcrossTiles tiles layout (buildMessageGraphic message layout style) style
    else
      (tiles.map fun tile =>
        let layout := buildLayout [tile]
        renderAcrossTiles [tile] layout (buildMessageGraphic message layout style) style).flatten

/-! ### Renderer lemmas -/

/-- The renderer never delivers more tiles than it was handed actions. -/
theorem prepareTiles_length_le (actions : List KeyAction) :
    (prepareTiles actions).length ≤ actions.length := by
  have hlen : (actions.filterMap fun a =>
      a.coordinates.map fun c => ({ action := a, col := c.1, row := c.2 } : Tile)).length ≤
      actions.length := List.length_filterMap_le _ _
  simp only [prepareTiles]
  split
  · simp
  · exact hlen

/-- The independent layout of a single tile: a 1x1 bounding box of one
tile-size, anchored at the tile's own coordinate. -/
theorem buildLayout_single (t : Tile) :
    buildLayout [t] =
      { tileSize := rendererTileSize, minCol := t.col, minRow := t.row,
        columns := 1, rows := 1, widthPx := 200, heightPx := 200 } := by
  unfold buildLayout intListMin intListMax
  simp [rendererTileSize]

/-- Checks that a character list contains no raw markup: no angle
bracket or double quote at all, and every ampersand immediately begins
one of the four entities `escapeXml` produces. -/
def wellEscaped : List Char → Bool
  | [] => true
  | c :: rest =>
    if c = '<' ∨ c = '>' ∨ c = '"' then false
    else if c = '&' then
      (decide (rest.take 3 = ['l', 't', ';']) || decide (rest.take 3 = ['g', 't', ';']) ||
        decide (rest.take 4 = ['a', 'm', 'p', ';']) ||
        decide (rest.take 5 = ['q', 'u', 'o', 't', ';'])) && wellEscaped rest
    else wellEscaped rest

/-- The escaped form of every message is free of raw markup. -/
theorem escapeXml_wellEscaped (l : List Char) :
    wellEscaped (l.foldr (fun c acc => escapeXmlChar c ++ acc) []) = true := by
  induction l with
  | nil => rfl
  | cons c rest ih =>
      show wellEscaped (escapeXmlChar c ++ rest.foldr (fun c acc => escapeXmlChar c ++ acc) []) =
        true
      generalize hE : rest.foldr (fun c acc => escapeXmlChar c ++ acc) [] = E at ih ⊢
      by_cases h1 : c = '<'
      · subst h1
        simp [escapeXmlChar, wellEscaped, ih]
      · by_cases h2 : c = '>'
        · subst h2
          simp [escapeXmlChar, wellEscaped, ih]
        · by_cases h3 : c = '&'
          · subst h3
            simp [escapeXmlChar, wellEscaped, ih]
          · by_cases h4 : c = '"'
            · subst h4
              simp [escapeXmlChar, wellEscaped, ih]
            · simp [escapeXmlChar, wellEscaped, h1, h2, h3, h4, ih]

/-- C10: every markup character of a message is replaced by its XML
entity before the message is embedded into the svg document: the escaped
message contains no angle bracket or quote and every ampersand starts an
entity, and `buildMessageGraphic` embeds exactly the escaped message (the
raw message never reaches the document). -/
theorem message_escaping (message : String) (layout : Layout) (style : DisplayStyle) :
    escapeXmlChar '<' = "&lt;".data ∧
    escapeXmlChar '>' = "&gt;".data ∧
    escapeXmlChar '&' = "&amp;".data ∧
    escapeXmlChar '"' = "&quot;".data ∧
    wellEscaped (escapeXml message).data = true ∧
    buildMessageGraphic message layout style =
      buildMessageGraphicSafe (escapeXml message) layout style :=
  ⟨rfl, rfl, rfl, rfl, escapeXml_wellEscaped message.data, rfl⟩

/-- C4: the multi-tile compositing decision.  With the option value the
coordinator computes for a device bucket (the multi-tile-layout setting
or-ed with the bucket holding more than one key), both the countdown and
the message path composite exactly when more than one coordinate-bearing
tile is present and (the setting is on or the call supplies more than one
key); and a tile rendered outside compositing gets its own independent
1x1 layout anchored at its coordinate. -/
theorem multi_tile_decision (settingOn : Bool) (keys : List KeyAction)
    (options : RenderOptions) (t : Tile)
    (hopt : options.multiTileLayout = some (settingOn || decide (keys.length > 1))) :
    (useMultiTileCountdown options (prepareTiles keys) =
      (decide ((prepareTiles keys).length > 1) && (settingOn || decide (keys.length > 1)))) ∧
    (useMultiTileMessage (prepareTiles keys) =
      (decide ((prepareTiles keys).length > 1) && (settingOn || decide (keys.length > 1)))) ∧
    buildLayout [t] =
      { tileSize := rendererTileSize, minCol := t.col, minRow := t.row,
        columns := 1, rows := 1, widthPx := 200, heightPx := 200 } := by
  have hle := prepareTiles_length_le keys
  by_cases htile : (prepareTiles keys).length > 1
  · have hkeys : keys.length > 1 := lt_of_lt_of_le htile hle
    refine ⟨?_, ?_, buildLayout_single t⟩
    · simp [useMultiTileCountdown, hopt, htile, hkeys]
    · simp [useMultiTileMessage, htile, hkeys]
  · refine ⟨?_, ?_, buildLayout_single t⟩
    · simp [useMultiTileCountdown, hopt, htile]
    · simp [useMultiTileMessage, htile]

/-- A first demonstration key at grid position (0,0). -/
def pairKeyA : KeyAction := { id := "a", deviceId := "d", coordinates := some (0, 0) }

/-- A second demonstration key at grid position (1,0) on the same device. -/
def pairKeyB : KeyAction := { id := "b", deviceId := "d", coordinates := some (1, 0) }

/-- A demonstration tile at grid position (2,1). -/
def soloTile : Tile :=
  { action := { id := "s", deviceId := "d", coordinates := some (2, 1) }, col := 2, row := 1 }

/-- Witness for C4: two coordinate-bearing keys with the setting off
still composite (the call itself supplies two keys); the 1x1 layout of a
tile at (2,1) is anchored there. -/
theorem multi_tile_decision_witness :
    (useMultiTileCountdown { multiTileLayout := some true } (prepareTiles [pairKeyA, pairKeyB]) =
      (decide ((prepareTiles [pairKeyA, pairKeyB]).length > 1) &&
        (false || decide (([pairKeyA, pairKeyB] : List KeyAction).length > 1)))) ∧
    (useMultiTileMessage (prepareTiles [pairKeyA, pairKeyB]) =
      (decide ((prepareTiles [pairKeyA, pairKeyB]).length > 1) &&
        (false || decide (([pairKeyA, pairKeyB] : List KeyAction).length > 1)))) ∧
    buildLayout [soloTile] =
      { tileSize := rendererTileSize, minCol := soloTile.col, minRow := soloTile.row,
        columns := 1, rows := 1, widthPx := 200, heightPx := 200 } :=
  multi_tile_decision false [pairKeyA, pairKeyB] { multiTileLayout := some true } soloTile
    (by decide)

/-- Stitching two images horizontally: defined exactly when both show
the same graphic, share the vertical window, and the second window starts
where the first ends; the result shows that same graphic through the
combined window. -/
def stitchHorizontal (a b : SvgImage) : Option SvgImage :=
  if a.graphic = b.graphic ∧ a.viewY = b.viewY ∧ a.viewH = b.viewH ∧
      a.viewX + a.viewW = b.viewX then
    some { viewX := a.viewX, viewY := a.viewY, viewW := a.viewW + b.viewW, viewH := a.viewH,
           graphic := a.graphic }
  else none

/-- The conceptual single-call whole-canvas render: the shared graphic
shown through the full-canvas window. -/
def fullCanvasImage (layout : Layout) (content : String) (style : DisplayStyle) : SvgImage :=
  { viewX := 0, viewY := 0, viewW := layout.widthPx, viewH := layout.heightPx,
    graphic := fullGraphic layout content style }

/-- The options the coordinator computes for the demonstration render. -/
def demoOptions : RenderOptions :=
  { accentColor := some "#00d37f", blink := some false, multiTileLayout := some true }

/-- The two demonstration tiles of the 2x1 layout. -/
def demoTiles : List Tile := prepareTiles [pairKeyA, pairKeyB]

/-- The demonstration 2x1 layout. -/
def demoLayout : Layout := buildLayout demoTiles

/-- The style resolved for remaining 9 of 10. -/
def demoStyle : DisplayStyle := buildStyle ((9 : Nat) : ℚ) ((10 : Nat) : ℚ) demoOptions

/-- The progress fraction for remaining 9 of 10. -/
def demoProgress : ℚ :=
  if ((10 : Nat) : ℚ) > 0 then 1 - max 0 (min 1 (((9 : Nat) : ℚ) / ((10 : Nat) : ℚ))) else 1

/-- The countdown content drawn once on the 2x1 canvas. -/
def demoContent : String := buildCountdownGraphic 9 demoLayout demoStyle demoProgress

/-- The one shared full-canvas graphic of the demonstration render. -/
def demoGraphic : String := fullGraphic demoLayout demoContent demoStyle

/-- The image delivered to the left tile: the shared graphic cropped at
the left tile's pixel offset inside the layout. -/
def demoImage0 : SvgImage :=
  { viewX := (((0 - demoLayout.minCol) : Int) : ℚ) * demoLayout.tileSize,
    viewY := (((0 - demoLayout.minRow) : Int) : ℚ) * demoLayout.tileSize,
    viewW := demoLayout.tileSize, viewH := demoLayout.tileSize, graphic := demoGraphic }

/-- The image delivered to the right tile: the same shared graphic
cropped at the right tile's pixel offset. -/
def demoImage1 : SvgImage :=
  { viewX := (((1 - demoLayout.minCol) : Int) : ℚ) * demoLayout.tileSize,
    viewY := (((0 - demoLayout.minRow) : Int) : ℚ) * demoLayout.tileSize,
    viewW := demoLayout.tileSize, viewH := demoLayout.tileSize, graphic := demoGraphic }

/-- The two demonstration tiles, resolved. -/
theorem demoTiles_eq :
    demoTiles = [{ action := pairKeyA, col := 0, row := 0 },
      { action := pairKeyB, col := 1, row := 0 }] := rfl

/-- The demonstration layout, resolved: a 2x1 bounding box of 400 by 200
pixels anchored at (0,0). -/
theorem demoLayout_eq :
    demoLayout =
      { tileSize := 200, minCol := 0, minRow := 0, columns := 2, rows := 1,
        widthPx := 400, heightPx := 200 } := by
  unfold demoLayout buildLayout
  rw [demoTiles_eq]
  simp only [Layout.mk.injEq]
  norm_num [intListMin, intListMax, rendererTileSize]

/-- The demonstration slicing, tile by tile. -/
theorem renderAcross_demo :
    renderAcrossTiles demoTiles demoLayout demoContent demoStyle =
      [(pairKeyA, demoImage0), (pairKeyB, demoImage1)] := rfl

/-- C2: `renderAcrossTiles` delivers to every tile the one shared
full-canvas graphic (a function of content, layout and style only),
cropped to a tile-sized window at pixel offset
((col - minCol) * T, (row - minRow) * T); and concretely, the 2x1 render
of remaining 9 of 10 yields two payloads holding the bit-identical shared
graphic at offsets (0,0) and (200,0), whose horizontal stitching is
exactly the single whole-canvas render of the same value — slicing is
lossless (and deterministic, the renderer being a pure function). -/
theorem multi_tile_slicing :
    (∀ (tiles : List Tile) (layout : Layout) (content : String) (style : DisplayStyle)
        (p : KeyAction × SvgImage), p ∈ renderAcrossTiles tiles layout content style →
      ∃ t ∈ tiles, p = (t.action,
        { viewX := (((t.col - layout.minCol) : Int) : ℚ) * layout.tileSize,
          viewY := (((t.row - layout.minRow) : Int) : ℚ) * layout.tileSize,
          viewW := layout.tileSize, viewH := layout.tileSize,
          graphic := fullGraphic layout content style })) ∧
    (renderCountdown 9 10 [pairKeyA, pairKeyB] demoOptions =
      [(pairKeyA, demoImage0), (pairKeyB, demoImage1)]) ∧
    demoImage0.graphic = demoImage1.graphic ∧
    (demoImage0.viewX = 0 ∧ demoImage0.viewY = 0 ∧ demoImage1.viewX = 200 ∧
      demoImage1.viewY = 0 ∧ demoImage0.viewW = 200 ∧ demoImage0.viewH = 200 ∧
      demoImage1.viewW = 200 ∧ demoImage1.viewH = 200) ∧
    stitchHorizontal demoImage0 demoImage1 =
      some (fullCanvasImage demoLayout demoContent demoStyle) ∧
    demoLayout.widthPx = 400 ∧ demoLayout.heightPx = 200 := by
  have hoff : demoImage0.viewX = 0 ∧ demoImage0.viewY = 0 ∧ demoImage1.viewX = 200 ∧
      demoImage1.viewY = 0 ∧ demoImage0.viewW = 200 ∧ demoImage0.viewH = 200 ∧
      demoImage1.viewW = 200 ∧ demoImage1.viewH = 200 := by
    norm_num [demoImage0, demoImage1, demoLayout_eq]
  refine ⟨?_, ?_, rfl, hoff, ?_, by rw [demoLayout_eq], by rw [demoLayout_eq]⟩
  · intro tiles layout content style p hp
    simp only [renderAcrossTiles] at hp
    obtain ⟨t, ht, rfl⟩ := List.mem_map.mp hp
    exact ⟨t, ht, rfl⟩
  · simp only [renderCountdown]
    exact renderAcross_demo
  · unfold stitchHorizontal
    rw [if_pos ⟨rfl, rfl, rfl, by norm_num [demoImage0, demoImage1, demoLayout_eq]⟩]
    apply congrArg some
    unfold fullCanvasImage
    simp only [SvgImage.mk.injEq]
    refine ⟨?_, ?_, ?_, ?_, rfl⟩ <;> norm_num [demoImage0, demoImage1, demoLayout_eq]

/-- Witness for C2: the left payload of the demonstration render is the
shared canvas cropped at the left tile's offset. -/
theorem multi_tile_slicing_witness :
    ∃ t ∈ demoTiles, (pairKeyA, demoImage0) = (t.action,
      { viewX := (((t.col - demoLayout.minCol) : Int) : ℚ) * demoLayout.tileSize,
        viewY := (((t.row - demoLayout.minRow) : Int) : ℚ) * demoLayout.tileSize,
        viewW := demoLayout.tileSize, viewH := demoLayout.tileSize,
        graphic := fullGraphic demoLayout demoContent demoStyle }) :=
  multi_tile_slicing.1 demoTiles demoLayout demoContent demoStyle (pairKeyA, demoImage0)
    (by rw [renderAcross_demo]; exact List.mem_cons_self _ _)

/-! ## Shutdown coordinator (shutdown-controller.ts)

The coordinator is embedded as a state record plus functions returning
the successor state together with the list of observable effects, in
program order: gateway calls, renderer calls (recorded with the options
the coordinator computes), title clears, settings writes, log lines, and
every assignment to the coordinator's `state` field (recorded as a
`stateChange` effect so intermediate states are observable).  The
device id of a key is `action.device?.id ?? "unknown-device"`, embedded
as the key's `deviceId` string. -/

/-- The two registered roles. -/
inductive Role where
  | master
  | child
deriving DecidableEq, Repr

/-- `ActionState` (the `arming` and `armed` values are declared but never
entered, as in the source). -/
inductive ActionState where
  | idle
  | arming
  | armed
  | running
  | cancelled
deriving DecidableEq, Repr

/-- One tracked key, `ActionContext` in the source. -/
structure ActionContext where
  id : String
  action : KeyAction
  role : Role
  deviceId : String
deriving DecidableEq, Repr

/-- The mutable fields of `ShutdownController` (`powerArmed` is the
gateway's armed gate owned by the controller's `SystemPower` instance). -/
structure ControllerState where
  timer : CountdownTimer
  state : ActionState
  blinkToggle : Bool
  sharedSettings : NormalizedSettings
  masterContext : Option String
  activeKeys : List ActionContext
  powerArmed : Bool
deriving DecidableEq, Repr

/-- Observable effects of the coordinator. -/
inductive Effect where
  | abortScheduled
  | stateChange (s : ActionState)
  | setArmed (b : Bool)
  | renderMessageCall (keys : List KeyAction) (message : String) (options : RenderOptions)
  | renderCountdownCall (keys : List KeyAction) (remaining total : Nat) (options : RenderOptions)
  | setTitle (keyId : String) (title : String)
  | setSettings (keyId : String) (settings : NormalizedSettings)
  | performAction (a : PowerAction)
  | logMsg (m : String)
deriving DecidableEq, Repr

/-- `Map.set` on the id-keyed registry: replace in place or append. -/
def mapSet (m : List ActionContext) (ctx : ActionContext) : List ActionContext :=
  if m.any fun c => c.id = ctx.id then
    m.map fun c => if c.id = ctx.id then ctx else c
  else m ++ [ctx]

/-- `Map.delete` on the id-keyed registry. -/
def mapDelete (m : List ActionContext) (keyId : String) : List ActionContext :=
  m.filter fun c => ¬c.id = keyId

/-- First-occurrence-ordered distinct device ids (the iteration order of
the bucket map in `getKeysPerDevice`). -/
def distinctFirst (l : List String) : List String :=
  l.foldl (fun acc d => if acc.contains d then acc else acc ++ [d]) []

/-- `getKeysPerDevice`: the tracked keys bucketed by device id, buckets
in first-seen order, keys in registry order. -/
def getKeysPerDevice (m : List ActionContext) : List (List KeyAction) :=
  (distinctFirst (m.map (·.deviceId))).map fun d =>
    (m.filter fun c => c.deviceId = d).map (·.action)

/-- `totalKeyCount`. -/
def totalKeyCount (cs : ControllerState) : Nat := cs.activeKeys.length

/-- `renderMessageAcrossDevices`: one renderer call per device bucket,
with the options the coordinator computes (the multi-tile option is the
shared setting or-ed with the bucket holding more than one key). -/
def renderMessageAcrossDevices (cs : ControllerState) (message : String)
    (settings : NormalizedSettings) (blink : Bool) : List Effect :=
  (getKeysPerDevice cs.activeKeys).map fun keys =>
    .renderMessageCall keys message
      { accentColor := some settings.accentColor, progressColor := some settings.accentColor,
        blink := some blink,
        multiTileLayout := some (settings.multiTileLayout || decide (keys.length > 1)) }

/-- `renderCountdownAcrossDevices`: flips the blink toggle, then one
renderer call per device bucket (blinking only in the last 3 seconds). -/
def renderCountdownAcrossDevices (cs : ControllerState) (remaining : Nat)
    (settings : NormalizedSettings) : ControllerState × List Effect :=
  let total := cs.timer.durationSeconds
  let bt := !cs.blinkToggle
  ({ cs with blinkToggle := bt },
   (getKeysPerDevice cs.activeKeys).map fun keys =>
     .renderCountdownCall keys remaining total
       { accentColor := some settings.accentColor,
         blink := some (if remaining ≤ 3 then bt else false),
         multiTileLayout := some (settings.multiTileLayout || decide (keys.length > 1)) })

/-- `clearTitlesAcrossDevices`: clear the title of every tracked key. -/
def clearTitlesAcrossDevices (cs : ControllerState) : List Effect :=
  ((getKeysPerDevice cs.activeKeys).map fun keys =>
    keys.map fun k => Effect.setTitle k.id "").flatten

/-- `renderByState`: a countdown frame while running, otherwise the
resting message — "Live mode - press to start" when armed, else
"Preview mode - press to start" — titles cleared after either. -/
def renderByState (cs : ControllerState) : ControllerState × List Effect :=
  if cs.state = .running then
    let r := renderCountdownAcrossDevices cs cs.timer.remainingSeconds cs.sharedSettings
    (r.1, r.2 ++ clearTitlesAcrossDevices r.1)
  else
    let armed := cs.sharedSettings.armed
    let message :=
      if armed then "Live mode - press to start" else "Preview mode - press to start"
    (cs, renderMessageAcrossDevices cs message cs.sharedSettings false ++
      clearTitlesAcrossDevices cs)

/-- `setMaster`: remember the master id, replace the shared settings,
persist them on the master key (when tracked) and propagate them to every
tracked child. -/
def setMaster (cs : ControllerState) (contextId : String) (settings : NormalizedSettings) :
    ControllerState × List Effect :=
  let cs1 : ControllerState :=
    { cs with masterContext := some contextId, sharedSettings := settings }
  let persistFx :=
    match cs1.activeKeys.find? fun c => c.id = contextId with
    | some _ => [Effect.setSettings contextId settings]
    | none => []
  let propFx := (cs1.activeKeys.filter fun c => c.role = .child).map fun c =>
    Effect.setSettings c.id settings
  (cs1, persistFx ++ propFx)

/-- `cancelCountdown`: cancel the timer with a callback issuing the
abort-scheduled gateway call; on success pass through `cancelled`, disarm
the gate, render "Cancelled" with the blink flag and clear titles, then
move to `idle` and render the fixed "Shutdown" message, clearing titles
again. -/
def cancelCountdown (cs : ControllerState) : ControllerState × List Effect :=
  let c := cs.timer.cancel true
  let abortFx := c.2.1.map fun _ => Effect.abortScheduled
  let cs1 : ControllerState := { cs with timer := c.2.2 }
  if c.1 then
    let cs2 : ControllerState := { cs1 with state := .cancelled, powerArmed := false }
    let fx1 := renderMessageAcrossDevices cs2 "Cancelled" cs2.sharedSettings true
    let tfx1 := clearTitlesAcrossDevices cs2
    let cs3 : ControllerState := { cs2 with state := .idle }
    let fx2 := renderMessageAcrossDevices cs3 "Shutdown" cs3.sharedSettings false
    let tfx2 := clearTitlesAcrossDevices cs3
    (cs3, abortFx ++ [Effect.stateChange .cancelled, Effect.setArmed false] ++ fx1 ++ tfx1 ++
      [Effect.stateChange .idle] ++ fx2 ++ tfx2)
  else
    (cs1, abortFx)

/-- `startCountdown`: nothing to do without keys; otherwise a fresh
timer is created when not running, the gate is set from the shared armed
setting, and the timer is started (the tick and completion callbacks
drive `renderCountdownAcrossDevices`, title clears and the power action
asynchronously). -/
def startCountdown (cs : ControllerState) : ControllerState × List Effect :=
  if totalKeyCount cs = 0 then
    (cs, [.logMsg "No keys available to render the countdown."])
  else
    let cs1 : ControllerState :=
      if cs.state ≠ .running then
        { cs with timer := CountdownTimer.new cs.sharedSettings.countdownSeconds.toNat }
      else cs
    let cs2 : ControllerState := { cs1 with powerArmed := cs1.sharedSettings.armed }
    let st := cs2.timer.start
    let cs3 : ControllerState := { cs2 with timer := st.2 }
    if st.1 then
      ({ cs3 with state := .running },
       [.setArmed cs2.sharedSettings.armed, .stateChange .running])
    else
      (cs3, [.setArmed cs2.sharedSettings.armed])

/-- `handleKeyDown`: a master press refreshes the shared settings first;
then a press during a running countdown cancels it, any other press arms
the gate from the shared settings and starts a countdown. -/
def handleKeyDown (cs : ControllerState) (key : KeyAction) (payload : InputSettings)
    (role : Role) : ControllerState × List Effect :=
  let m := if role = .master then setMaster cs key.id (normalizeSettings payload) else (cs, [])
  let cs0 := m.1
  if cs0.state = .running then
    let c := cancelCountdown cs0
    (c.1, m.2 ++ c.2)
  else
    let cs1 : ControllerState := { cs0 with powerArmed := cs0.sharedSettings.armed }
    let st := startCountdown cs1
    (st.1, m.2 ++ [Effect.setArmed cs0.sharedSettings.armed] ++ st.2)

/-- `unregister`: drop the key; when the registry became empty during a
running countdown, cancel the timer (callback issuing the abort call),
force the state to idle and attempt a "Cancelled" render (a no-op with no
tiles left); finally clear the master pointer when the master left. -/
def unregister (cs : ControllerState) (key : KeyAction) (role : Role) :
    ControllerState × List Effect :=
  let cs1 : ControllerState := { cs with activeKeys := mapDelete cs.activeKeys key.id }
  let r :=
    if cs1.activeKeys.length = 0 ∧ cs1.state = .running then
      let c := cs1.timer.cancel true
      let abortFx := c.2.1.map fun _ => Effect.abortScheduled
      let cs2 : ControllerState := { cs1 with timer := c.2.2, state := .idle }
      let fx := renderMessageAcrossDevices cs2 "Cancelled" cs2.sharedSettings false
      let tfx := clearTitlesAcrossDevices cs2
      (cs2, abortFx ++ [Effect.stateChange ActionState.idle] ++ fx ++ tfx)
    else
      (cs1, ([] : List Effect))
  if role = .master ∧ r.1.masterContext = some key.id then
    ({ r.1 with masterContext := none }, r.2)
  else
    r

/-! ### Coordinator lemmas -/

/-- The coordinator state during the transient "Cancelled" flash: timer
reset, state `cancelled`, gate disarmed; registry and settings intact. -/
def cancelMidState (cs : ControllerState) : ControllerState :=
  { cs with
    timer := ⟨cs.timer.durationSeconds, .idle, 0, false⟩,
    state := .cancelled, powerArmed := false }

/-- The coordinator state after the cancellation path: as
`cancelMidState` but back at `idle`. -/
def cancelFinalState (cs : ControllerState) : ControllerState :=
  { cs with
    timer := ⟨cs.timer.durationSeconds, .idle, 0, false⟩,
    state := .idle, powerArmed := false }

/-- The cancellation path on a running timer, fully resolved. -/
theorem cancelCountdown_running (cs : ControllerState) (htimer : cs.timer.state = .running) :
    cancelCountdown cs =
      (cancelFinalState cs,
       [Effect.abortScheduled, Effect.stateChange .cancelled, Effect.setArmed false] ++
         renderMessageAcrossDevices (cancelMidState cs) "Cancelled" cs.sharedSettings true ++
         clearTitlesAcrossDevices (cancelMidState cs) ++
         [Effect.stateChange .idle] ++
         renderMessageAcrossDevices (cancelFinalState cs) "Shutdown" cs.sharedSettings false ++
         clearTitlesAcrossDevices (cancelFinalState cs)) := by
  have hc : cs.timer.cancel true =
      (true, [TimerEvent.cancelCb], ⟨cs.timer.durationSeconds, .idle, 0, false⟩) := by
    unfold CountdownTimer.cancel CountdownTimer.cancelHalted
    rw [if_pos htimer]
    rfl
  simp only [cancelCountdown, hc, cancelMidState, cancelFinalState, List.map_cons,
    List.map_nil, if_true]
  rfl

/-- C3 (amended): when a press arrives while the coordinator state is
running, the countdown is cancelled via `Timer.cancel` with a callback
issuing exactly one abort-scheduled gateway call; on success the state
passes through `cancelled`, the gate is disarmed, a "Cancelled" message
with the blink flag is rendered across devices and titles cleared, then
the state becomes idle and the fixed "Shutdown" message — not the
idle/preview resting message the claim asserts — is rendered with titles
cleared again.  (The resting message "Live mode - press to start" when
armed, else "Preview mode - press to start", is what `renderByState`
produces in the non-running states, as the final conjunct shows.) -/
theorem press_while_running (cs : ControllerState) (key : KeyAction) (payload : InputSettings)
    (hrun : cs.state = .running) (htimer : cs.timer.state = .running) :
    handleKeyDown cs key payload .child =
      (cancelFinalState cs,
       [Effect.abortScheduled, Effect.stateChange .cancelled, Effect.setArmed false] ++
         renderMessageAcrossDevices (cancelMidState cs) "Cancelled" cs.sharedSettings true ++
         clearTitlesAcrossDevices (cancelMidState cs) ++
         [Effect.stateChange .idle] ++
         renderMessageAcrossDevices (cancelFinalState cs) "Shutdown" cs.sharedSettings false ++
         clearTitlesAcrossDevices (cancelFinalState cs)) ∧
    (cancelMidState cs).state = .cancelled ∧
    (cancelFinalState cs).state = .idle ∧
    (cancelFinalState cs).powerArmed = false ∧
    (cancelFinalState cs).timer.state = .idle ∧
    (renderByState (cancelFinalState cs)).2 =
      renderMessageAcrossDevices (cancelFinalState cs)
        (if cs.sharedSettings.armed then "Live mode - press to start"
         else "Preview mode - press to start") cs.sharedSettings false ++
        clearTitlesAcrossDevices (cancelFinalState cs) ∧
    handleKeyDown cs key payload .master =
      (cancelFinalState (setMaster cs key.id (normalizeSettings payload)).1,
       (setMaster cs key.id (normalizeSettings payload)).2 ++
         ([Effect.abortScheduled, Effect.stateChange .cancelled, Effect.setArmed false] ++
           renderMessageAcrossDevices
             (cancelMidState (setMaster cs key.id (normalizeSettings payload)).1) "Cancelled"
             (setMaster cs key.id (normalizeSettings payload)).1.sharedSettings true ++
           clearTitlesAcrossDevices
             (cancelMidState (setMaster cs key.id (normalizeSettings payload)).1) ++
           [Effect.stateChange .idle] ++
           renderMessageAcrossDevices
             (cancelFinalState (setMaster cs key.id (normalizeSettings payload)).1) "Shutdown"
             (setMaster cs key.id (normalizeSettings payload)).1.sharedSettings false ++
           clearTitlesAcrossDevices
             (cancelFinalState (setMaster cs key.id (normalizeSettings payload)).1))) := by
  refine ⟨?_, rfl, rfl, rfl, rfl, ?_, ?_⟩
  · have hcancel := cancelCountdown_running cs htimer
    simp only [handleKeyDown, reduceCtorEq, if_false, hrun, if_true, hcancel, List.nil_append]
  · simp only [renderByState, cancelFinalState]
    rfl
  · have hms : (setMaster cs key.id (normalizeSettings payload)).1.timer.state =
        CountdownState.running := htimer
    have hstate : (setMaster cs key.id (normalizeSettings payload)).1.state =
        ActionState.running := hrun
    have hcancel := cancelCountdown_running (setMaster cs key.id (normalizeSettings payload)).1 hms
    simp only [handleKeyDown, if_true, hstate, hcancel]

/-- A demonstration key for the coordinator claims. -/
def cexKey : KeyAction := { id := "k", deviceId := "d", coordinates := some (0, 0) }

/-- A coordinator tracking one child key, mid-countdown at 3 seconds
remaining, gate armed, preview settings (armed = false). -/
def cexState : ControllerState :=
  { timer := ⟨10, .running, 3, true⟩, state := .running, blinkToggle := false,
    sharedSettings := DEFAULTS, masterContext := none,
    activeKeys := [{ id := "k", action := cexKey, role := .child, deviceId := "d" }],
    powerArmed := true }

/-- Witness for C3 at the concrete mid-countdown coordinator. -/
theorem press_while_running_witness :
    handleKeyDown cexState cexKey {} .child =
      (cancelFinalState cexState,
       [Effect.abortScheduled, Effect.stateChange .cancelled, Effect.setArmed false] ++
         renderMessageAcrossDevices (cancelMidState cexState) "Cancelled"
           cexState.sharedSettings true ++
         clearTitlesAcrossDevices (cancelMidState cexState) ++
         [Effect.stateChange .idle] ++
         renderMessageAcrossDevices (cancelFinalState cexState) "Shutdown"
           cexState.sharedSettings false ++
         clearTitlesAcrossDevices (cancelFinalState cexState)) ∧
    (cancelMidState cexState).state = .cancelled ∧
    (cancelFinalState cexState).state = .idle ∧
    (cancelFinalState cexState).powerArmed = false ∧
    (cancelFinalState cexState).timer.state = .idle ∧
    (renderByState (cancelFinalState cexState)).2 =
      renderMessageAcrossDevices (cancelFinalState cexState)
        (if cexState.sharedSettings.armed then "Live mode - press to start"
         else "Preview mode - press to start") cexState.sharedSettings false ++
        clearTitlesAcrossDevices (cancelFinalState cexState) ∧
    handleKeyDown cexState cexKey {} .master =
      (cancelFinalState (setMaster cexState cexKey.id (normalizeSettings {})).1,
       (setMaster cexState cexKey.id (normalizeSettings {})).2 ++
         ([Effect.abortScheduled, Effect.stateChange .cancelled, Effect.setArmed false] ++
           renderMessageAcrossDevices
             (cancelMidState (setMaster cexState cexKey.id (normalizeSettings {})).1) "Cancelled"
             (setMaster cexState cexKey.id (normalizeSettings {})).1.sharedSettings true ++
           clearTitlesAcrossDevices
             (cancelMidState (setMaster cexState cexKey.id (normalizeSettings {})).1) ++
           [Effect.stateChange .idle] ++
           renderMessageAcrossDevices
             (cancelFinalState (setMaster cexState cexKey.id (normalizeSettings {})).1) "Shutdown"
             (setMaster cexState cexKey.id (normalizeSettings {})).1.sharedSettings false ++
           clearTitlesAcrossDevices
             (cancelFinalState (setMaster cexState cexKey.id (normalizeSettings {})).1))) :=
  press_while_running cexState cexKey {} rfl rfl

/-- Counterexample to C3 as stated: at the concrete mid-countdown
coordinator with the gate setting unarmed, the press-while-running trace
renders the fixed message "Shutdown" after returning to idle, and renders
the claimed resting message "Preview mode - press to start" nowhere. -/
theorem press_while_running_cex :
    cexState.state = .running ∧
    cexState.sharedSettings.armed = false ∧
    ((handleKeyDown cexState cexKey {} .child).2.any fun e =>
      match e with
      | .renderMessageCall _ m _ => m = "Shutdown"
      | _ => false) = true ∧
    ((handleKeyDown cexState cexKey {} .child).2.any fun e =>
      match e with
      | .renderMessageCall _ m _ => m = "Preview mode - press to start"
      | _ => false) = false := by
  decide

/-- A render fan-out over an empty registry issues no calls. -/
theorem renderMessage_empty (cs : ControllerState) (h : cs.activeKeys = [])
    (msg : String) (settings : NormalizedSettings) (blink : Bool) :
    renderMessageAcrossDevices cs msg settings blink = [] := by
  unfold renderMessageAcrossDevices getKeysPerDevice distinctFirst
  rw [h]
  rfl

/-- A title clear over an empty registry issues no calls. -/
theorem clearTitles_empty (cs : ControllerState) (h : cs.activeKeys = []) :
    clearTitlesAcrossDevices cs = [] := by
  unfold clearTitlesAcrossDevices getKeysPerDevice distinctFirst
  rw [h]
  rfl

/-- C9: removing the last tracked tile while the coordinator is running
cancels the timer, issues exactly one abort-scheduled gateway call,
forces the state to idle, and the attempted best-effort "Cancelled"
render issues no calls (no tiles remain); unregistering while not
running, or while tiles remain, produces no effects at all and leaves
state and timer untouched. -/
theorem unregister_contract :
    (∀ (cs : ControllerState) (key : KeyAction) (role : Role),
      cs.state = .running → cs.timer.state = .running →
      mapDelete cs.activeKeys key.id = [] →
      ∃ fs : ControllerState,
        unregister cs key role = (fs, [Effect.abortScheduled, Effect.stateChange .idle]) ∧
        fs.state = .idle ∧ fs.activeKeys = [] ∧ fs.timer.state = .idle ∧
        renderMessageAcrossDevices fs "Cancelled" cs.sharedSettings false = []) ∧
    (∀ (cs : ControllerState) (key : KeyAction) (role : Role),
      ¬(mapDelete cs.activeKeys key.id = [] ∧ cs.state = .running) →
      ∃ fs : ControllerState,
        unregister cs key role = (fs, []) ∧ fs.state = cs.state ∧ fs.timer = cs.timer) := by
  constructor
  · intro cs key role hrun htimer hlast
    have hc : cs.timer.cancel true =
        (true, [TimerEvent.cancelCb], ⟨cs.timer.durationSeconds, .idle, 0, false⟩) := by
      unfold CountdownTimer.cancel CountdownTimer.cancelHalted
      rw [if_pos htimer]
      rfl
    unfold unregister
    simp only [hlast, hrun, hc, List.length_nil, List.map_cons, List.map_nil, and_self,
      if_true]
    rw [renderMessage_empty _ rfl, clearTitles_empty _ rfl]
    by_cases hm : role = Role.master ∧ cs.masterContext = some key.id
    · rw [if_pos hm]
      exact ⟨_, rfl, rfl, rfl, rfl, renderMessage_empty _ rfl "Cancelled" cs.sharedSettings false⟩
    · rw [if_neg hm]
      exact ⟨_, rfl, rfl, rfl, rfl, renderMessage_empty _ rfl "Cancelled" cs.sharedSettings false⟩
  · intro cs key role hnot
    have hnot' : ¬((mapDelete cs.activeKeys key.id).length = 0 ∧ cs.state = .running) := by
      intro hcontra
      exact hnot ⟨List.length_eq_zero.mp hcontra.1, hcontra.2⟩
    unfold unregister
    dsimp only
    rw [if_neg hnot']
    by_cases hm : role = Role.master ∧ cs.masterContext = some key.id
    · rw [if_pos hm]
      exact ⟨_, rfl, rfl, rfl⟩
    · rw [if_neg hm]
      exact ⟨_, rfl, rfl, rfl⟩

/-- Witness for C9: removing the only tracked key mid-countdown aborts
and idles; removing a key of an idle coordinator does nothing. -/
theorem unregister_contract_witness :
    (∃ fs : ControllerState,
      unregister cexState cexKey .child =
          (fs, [Effect.abortScheduled, Effect.stateChange .idle]) ∧
        fs.state = .idle ∧ fs.activeKeys = [] ∧ fs.timer.state = .idle ∧
        renderMessageAcrossDevices fs "Cancelled" cexState.sharedSettings false = []) ∧
    (∃ fs : ControllerState,
      unregister (cancelFinalState cexState) cexKey .child = (fs, []) ∧
        fs.state = (cancelFinalState cexState).state ∧
        fs.timer = (cancelFinalState cexState).timer) :=
  ⟨unregister_contract.1 cexState cexKey .child rfl rfl (by decide),
   unregister_contract.2 (cancelFinalState cexState) cexKey .child (by decide)⟩

end ShutdownPlugin
